import Mathlib

/-!
Verification development for the aries-cloudagent trust core:
the authentication proof-purpose pipeline
(`vc/ld_proofs/purposes/AuthenticationProofPurpose.py`), the ledger admin
route handlers (spec section 6, pinned by `ledger/tests/test_routes.py`),
and the basic-message `Role`/`State` enum helpers
(`protocols/basicmessage/v1_0/models/basicmessage_record.py`).

Python dictionaries are embedded as structures with `Option` fields
(`none` models an absent key, so `dict.get` is the field itself), Python
exceptions as an explicit error type threaded through `Except`, and
Python truthiness of optional strings as `pyTruthy`.
-/

/-- Python truthiness of an optional string: `None` and the empty string
are falsy, every other string is truthy.  Models tests such as
`if self.domain:` and `if not did:`. -/
def pyTruthy : Option String → Bool
  | none => false
  | some s => !s.isEmpty

/-! ## Proof purposes (`AuthenticationProofPurpose.py`) -/

/-- A Python exception value as seen by the `except Exception` handler:
either the `LinkedDataProofException` raised by the purpose itself, or
any other exception escaping a collaborator (base validation, signature
suite, document loader). -/
inductive PyException where
  | linkedDataProof (msg : String)
  | other (msg : String)
deriving DecidableEq

/-- `PurposeResult` from `validation_result.py`: the structured value a
purpose validation is meant to return. -/
structure PurposeResult where
  valid : Bool
  error : Option PyException := none
deriving DecidableEq

/-- The fields of a linked-data proof dictionary that the proof purposes
read or write; every field is optional because a Python dict key may be
absent. -/
structure LDProof where
  proofPurpose : Option String := none
  created : Option String := none
  challenge : Option String := none
  domain : Option String := none
deriving DecidableEq

/-- The term stamped by the authentication purpose, fixed by its
constructor: `super().__init__(term="authentication", ...)`. -/
def authenticationTerm : String := "authentication"

/-- State of an `AuthenticationProofPurpose` instance after `__init__`:
the caller's anti-replay challenge, the optional domain, and the
reference date inherited from `ControllerProofPurpose`. -/
structure AuthenticationProofPurpose where
  challenge : String
  domain : Option String := none
  date : String := ""

/-- Modelled from the spec: `ControllerProofPurpose.update` is not part
of the provided sources; per spec section 4.4 it stamps the purpose
`term` and `created = reference_date` onto an outgoing proof (a pure
transformation). -/
def controllerUpdate (term : String) (date : String) (p : LDProof) : LDProof :=
  { p with proofPurpose := some term, created := some date }

/-- `AuthenticationProofPurpose.update`: runs the base update, then
stamps `proof["challenge"]`, and stamps `proof["domain"]` only when
`self.domain` is truthy. -/
def AuthenticationProofPurpose.update (self : AuthenticationProofPurpose)
    (p : LDProof) : LDProof :=
  let p2 := controllerUpdate authenticationTerm self.date p
  let p3 := { p2 with challenge := some self.challenge }
  if pyTruthy self.domain then { p3 with domain := self.domain } else p3

/-- `AuthenticationProofPurpose.validate`.  The outcome of the
`super().validate(...)` call (which wraps the signature suite and the
document loader) is abstracted as `base : Except PyException
PurposeResult`, covering both a returned result and a raised exception.
The second component of the returned pair records whether the base
validation was reached (`true`) or short-circuited (`false`).

Faithful to the source: the `try` body raises
`LinkedDataProofException` on a challenge mismatch, and — when
`self.domain` is truthy — on a domain mismatch; the `except Exception`
handler constructs `PurposeResult(valid=False, error=e)` **without
returning it** (the `return` keyword is missing on line 62), so on every
exception path the Python function falls off the end and returns `None`,
modelled here as `none`. -/
def AuthenticationProofPurpose.validate (self : AuthenticationProofPurpose)
    (p : LDProof) (base : Except PyException PurposeResult) :
    Option PurposeResult × Bool :=
  if p.challenge ≠ some self.challenge then
    (none, false)
  else if pyTruthy self.domain = true ∧ p.domain ≠ self.domain then
    (none, false)
  else
    match base with
    | .ok r => (some r, true)
    | .error _ => (none, true)

/-! ## Basic-message `Role` and `State` enums (`basicmessage_record.py`) -/

/-- The members of `BasicMessageRecord.Role`. -/
inductive BMRole where
  | SENT
  | RECEIVED
deriving DecidableEq

/-- The argument of `Role.get` / `Role.__eq__`: either a Python `str` or
a `Role` member (the `Union[str, Role]` annotation). -/
inductive BMRoleArg where
  | str (s : String)
  | enum (r : BMRole)
deriving DecidableEq

/-- The members of `BasicMessageRecord.State` (textually identical to
`Role` in the source). -/
inductive BMState where
  | SENT
  | RECEIVED
deriving DecidableEq

/-- The argument of `State.get` / `State.__eq__`. -/
inductive BMStateArg where
  | str (s : String)
  | enum (r : BMState)
deriving DecidableEq

mutual

/-- `BasicMessageRecord.Role.get(label)`, instrumented with fuel (call
depth): `none` means the computation did not finish within `fuel` nested
calls; `some g` means it finished and returned `g` (`g = none` is the
Python `return None`).  For a string label the loop body `label == role`
first tries `str.__eq__`, which returns `NotImplemented` for a non-str
operand, so Python falls back to the reflected `Role.__eq__(role,
label)`, modelled by `bmRoleEqStr`. -/
def bmRoleGet (fuel : Nat) (label : BMRoleArg) : Option (Option BMRole) :=
  match fuel with
  | 0 => none
  | f + 1 =>
    match label with
    | .enum r => some (some r)
    | .str s =>
      match bmRoleEqStr f BMRole.SENT s with
      | none => none
      | some true => some (some BMRole.SENT)
      | some false =>
        match bmRoleEqStr f BMRole.RECEIVED s with
        | none => none
        | some true => some (some BMRole.RECEIVED)
        | some false => some none

/-- `BasicMessageRecord.Role.__eq__(self, s)` for a string operand:
`return self is BasicMessageRecord.Role.get(other)`, which re-enters
`get` on the same string. -/
def bmRoleEqStr (fuel : Nat) (self : BMRole) (s : String) : Option Bool :=
  match fuel with
  | 0 => none
  | f + 1 =>
    match bmRoleGet f (BMRoleArg.str s) with
    | none => none
    | some g => some (decide (g = some self))

end

mutual

/-- `BasicMessageRecord.State.get(label)` with fuel; same structure as
`bmRoleGet` because the source duplicates the class body. -/
def bmStateGet (fuel : Nat) (label : BMStateArg) : Option (Option BMState) :=
  match fuel with
  | 0 => none
  | f + 1 =>
    match label with
    | .enum r => some (some r)
    | .str s =>
      match bmStateEqStr f BMState.SENT s with
      | none => none
      | some true => some (some BMState.SENT)
      | some false =>
        match bmStateEqStr f BMState.RECEIVED s with
        | none => none
        | some true => some (some BMState.RECEIVED)
        | some false => some none

/-- `BasicMessageRecord.State.__eq__(self, s)` for a string operand. -/
def bmStateEqStr (fuel : Nat) (self : BMState) (s : String) : Option Bool :=
  match fuel with
  | 0 => none
  | f + 1 =>
    match bmStateGet f (BMStateArg.str s) with
    | none => none
    | some g => some (decide (g = some self))

end

/-! ## Ledger admin routes

The handlers in `aries_cloudagent/ledger/routes.py` are not among the
provided sources; only their test suite (`ledger/tests/test_routes.py`)
is.  They are therefore modelled from the spec (sections 4 and 6) and
cross-checked against the behaviour the tests pin down.  Each handler is
a pure function of the injected ledger binding (`Option LedgerConn`,
`none` when no ledger is configured for the calling context) and the
request data; collaborator outcomes are fields of `LedgerConn`, and the
second component of the result lists the collaborator calls the handler
performed, in order. -/

/-- The exception classes the route handlers distinguish:
`LedgerTransactionError` and `BadLedgerRequestError` (both subclasses of
`LedgerError`), any other `LedgerError`, `WalletError`, and
`StorageError`. -/
inductive LedgerErr where
  | transaction
  | badLedgerReq
  | ledgerOther
  | wallet
  | storage
deriving DecidableEq

/-- HTTP failure outcomes of a route handler. -/
inductive HttpFail where
  | badRequest
  | forbidden
  | notFound
deriving DecidableEq

/-- Modelled from the spec: the `Role` enum of `ledger/indy.py` (the
Role Registry) is not among the provided sources; per spec section 3 the
canonical members are TRUSTEE(0), STEWARD(2), ENDORSER(101),
NETWORK_MONITOR(201) and USER (no ledger-write privilege). -/
inductive IndyRole where
  | TRUSTEE
  | STEWARD
  | ENDORSER
  | NETWORK_MONITOR
  | USER
deriving DecidableEq

/-- Modelled from the spec: the Role Registry's canonical name for each
role (`role.name` in Python), the string the get-role route returns. -/
def roleName : IndyRole → String
  | .TRUSTEE => "TRUSTEE"
  | .STEWARD => "STEWARD"
  | .ENDORSER => "ENDORSER"
  | .NETWORK_MONITOR => "NETWORK_MONITOR"
  | .USER => "USER"

/-- The transaction-author-agreement snapshot read from the ledger:
`{taa_required, version, text}` (version/text optional because the tests
exercise agreements carrying only `taa_required`). -/
structure TaaSnapshot where
  taaRequired : Bool
  version : Option String := none
  text : Option String := none
deriving DecidableEq

/-- A recorded TAA acceptance as returned by
`get_latest_txn_author_acceptance`: `{mechanism, time}`. -/
structure TaaAcceptance where
  mechanism : String
  time : Nat
deriving DecidableEq

/-- The acceptance value submitted to `accept_txn_author_agreement`:
`{version, text, digest}`. -/
structure AcceptRecord where
  version : String
  text : String
  digest : String
deriving DecidableEq

/-- The JSON body of an accept-TAA request: `{version, text, mechanism}`. -/
structure AcceptBody where
  version : String
  text : String
  mechanism : String
deriving DecidableEq

/-- A collaborator invocation performed by a route handler, with its
arguments. -/
inductive LCall where
  | registerNym (did verkey : String) (role : Option String)
  | getNymRole (did : String)
  | getKeyForDid (did : String)
  | getEndpointForDid (did : String) (endpointType : Option String)
  | rotateKeypair
  | getAgreement
  | getAcceptance
  | acceptAgreement (record : AcceptRecord) (mechanism : String)
deriving DecidableEq

/-- The injected `BaseLedger` collaborator: its `type` attribute and the
outcome each of its methods would produce if invoked.
`acceptTaaR` depends on the submitted record and mechanism, and
`taaDigest` is the ledger's digest function over (version, text). -/
structure LedgerConn where
  ltype : String
  registerNymR : Except LedgerErr Bool
  getNymRoleR : Except LedgerErr IndyRole
  getKeyForDidR : Except LedgerErr (Option String)
  getEndpointForDidR : Except LedgerErr (Option String)
  rotateKeypairR : Except LedgerErr Unit
  getTaaR : Except LedgerErr TaaSnapshot
  getAcceptanceR : Except LedgerErr (Option TaaAcceptance)
  acceptTaaR : AcceptRecord → String → Except LedgerErr Unit
  taaDigest : String → String → String

/-- The result type of a route handler: an HTTP failure or a JSON
success payload, paired with the ordered collaborator calls made. -/
inductive RouteResp where
  | registerResp (success : Bool)
  | roleResp (role : String)
  | verkeyResp (verkey : String)
  | endpointResp (endpoint : Option String)
  | taaResp (required : Bool) (version : Option String) (text : Option String)
      (accepted : Option TaaAcceptance)
  | emptyResp
deriving DecidableEq

/-- Modelled from the spec: `register_ledger_nym` — forbidden when no
ledger is bound (before anything else); bad-request when `did` or
`verkey` is missing, before any ledger call; then submits the NYM and
maps `LedgerTransactionError` to forbidden and any other ledger or
wallet error to bad-request. -/
def register_ledger_nym (ol : Option LedgerConn)
    (did verkey role : Option String) :
    Except HttpFail RouteResp × List LCall :=
  match ol with
  | none => (.error .forbidden, [])
  | some l =>
    if pyTruthy did = false ∨ pyTruthy verkey = false then
      (.error .badRequest, [])
    else
      let d := did.getD ""
      let v := verkey.getD ""
      match l.registerNymR with
      | .ok b => (.ok (.registerResp b), [.registerNym d v role])
      | .error .transaction => (.error .forbidden, [.registerNym d v role])
      | .error _ => (.error .badRequest, [.registerNym d v role])

/-- Modelled from the spec: `get_nym_role` — forbidden when no ledger is
bound; bad-request when `did` is missing; reads the DID's role and maps
`LedgerTransactionError` to forbidden, `BadLedgerRequestError` (no such
DID) to not-found, any other ledger error to bad-request; on success it
answers with the Role Registry's canonical name for the raw ledger
role. -/
def get_nym_role (ol : Option LedgerConn) (did : Option String) :
    Except HttpFail RouteResp × List LCall :=
  match ol with
  | none => (.error .forbidden, [])
  | some l =>
    if pyTruthy did = false then
      (.error .badRequest, [])
    else
      let d := did.getD ""
      match l.getNymRoleR with
      | .ok r => (.ok (.roleResp (roleName r)), [.getNymRole d])
      | .error .transaction => (.error .forbidden, [.getNymRole d])
      | .error .badLedgerReq => (.error .notFound, [.getNymRole d])
      | .error _ => (.error .badRequest, [.getNymRole d])

/-- Modelled from the spec: `get_did_verkey` — forbidden when no ledger
is bound; bad-request when `did` is missing; not-found when the ledger
holds no public key for the DID; ledger error maps to bad-request. -/
def get_did_verkey (ol : Option LedgerConn) (did : Option String) :
    Except HttpFail RouteResp × List LCall :=
  match ol with
  | none => (.error .forbidden, [])
  | some l =>
    if pyTruthy did = false then
      (.error .badRequest, [])
    else
      let d := did.getD ""
      match l.getKeyForDidR with
      | .ok (some vk) => (.ok (.verkeyResp vk), [.getKeyForDid d])
      | .ok none => (.error .notFound, [.getKeyForDid d])
      | .error _ => (.error .badRequest, [.getKeyForDid d])

/-- Modelled from the spec: `get_did_endpoint` — forbidden when no
ledger is bound; bad-request when `did` is missing; ledger error maps to
bad-request; otherwise answers with the endpoint the ledger reports for
the requested endpoint type. -/
def get_did_endpoint (ol : Option LedgerConn)
    (did endpointType : Option String) :
    Except HttpFail RouteResp × List LCall :=
  match ol with
  | none => (.error .forbidden, [])
  | some l =>
    if pyTruthy did = false then
      (.error .badRequest, [])
    else
      let d := did.getD ""
      match l.getEndpointForDidR with
      | .ok e => (.ok (.endpointResp e), [.getEndpointForDid d endpointType])
      | .error _ => (.error .badRequest, [.getEndpointForDid d endpointType])

/-- Modelled from the spec: `rotate_public_did_keypair` — forbidden when
no ledger is bound; a key-material (wallet) or ledger error maps to
bad-request; success acknowledges with an empty payload. -/
def rotate_public_did_keypair (ol : Option LedgerConn) :
    Except HttpFail RouteResp × List LCall :=
  match ol with
  | none => (.error .forbidden, [])
  | some l =>
    match l.rotateKeypairR with
    | .ok _ => (.ok .emptyResp, [.rotateKeypair])
    | .error _ => (.error .badRequest, [.rotateKeypair])

/-- Modelled from the spec: `ledger_get_taa` — forbidden when no ledger
is bound or the ledger is not an indy ledger; reads the agreement
(ledger error maps to bad-request) and, only when acceptance is
required, the latest acceptance on record. -/
def ledger_get_taa (ol : Option LedgerConn) :
    Except HttpFail RouteResp × List LCall :=
  match ol with
  | none => (.error .forbidden, [])
  | some l =>
    if l.ltype ≠ "indy" then
      (.error .forbidden, [])
    else
      match l.getTaaR with
      | .error _ => (.error .badRequest, [.getAgreement])
      | .ok info =>
        if info.taaRequired then
          match l.getAcceptanceR with
          | .error _ => (.error .badRequest, [.getAgreement, .getAcceptance])
          | .ok acc =>
            (.ok (.taaResp info.taaRequired info.version info.text acc),
             [.getAgreement, .getAcceptance])
        else
          (.ok (.taaResp info.taaRequired info.version info.text none),
           [.getAgreement])

/-- Modelled from the spec: `ledger_accept_taa` — forbidden when no
ledger is bound or the ledger is not an indy ledger; re-reads the
current agreement; when it does not require acceptance the request is a
bad-request and the accept collaborator is never invoked; otherwise the
handler submits exactly `{version, text, digest taaDigest(version,
text)}` with the given mechanism, and a persistence failure maps to
bad-request. -/
def ledger_accept_taa (ol : Option LedgerConn) (body : AcceptBody) :
    Except HttpFail RouteResp × List LCall :=
  match ol with
  | none => (.error .forbidden, [])
  | some l =>
    if l.ltype ≠ "indy" then
      (.error .forbidden, [])
    else
      match l.getTaaR with
      | .error _ => (.error .badRequest, [.getAgreement])
      | .ok info =>
        if info.taaRequired = false then
          (.error .badRequest, [.getAgreement])
        else
          let sub : AcceptRecord :=
            ⟨body.version, body.text, l.taaDigest body.version body.text⟩
          match l.acceptTaaR sub body.mechanism with
          | .ok _ =>
            (.ok .emptyResp, [.getAgreement, .acceptAgreement sub body.mechanism])
          | .error _ =>
            (.error .badRequest,
             [.getAgreement, .acceptAgreement sub body.mechanism])

/-! ## Theorems -/

/-- C1: the claim says every validation path of
`AuthenticationProofPurpose.validate`, including a collaborator
exception, yields a returned `PurposeResult` with `valid = false`; the
code instead falls into an `except` branch that builds that result but
never returns it, so every failure path produces no result at all
(Python `None`).  Evaluated at a challenge-mismatch input and at a
collaborator-exception input: both paths return `none`, not a
`valid = false` result value. -/
theorem c1_validate_failure_paths_return_none :
    (∀ base, AuthenticationProofPurpose.validate ⟨"abc", none, "d1"⟩
      ⟨none, none, some "xyz", none⟩ base = (none, false)) ∧
    (∀ msg, AuthenticationProofPurpose.validate ⟨"abc", none, "d1"⟩
      ⟨none, none, some "abc", none⟩ (.error (.other msg)) = (none, true)) := by
  constructor
  · intro base
    rfl
  · intro msg
    rfl

/-- C2: on a challenge mismatch the base validation is indeed never
reached (the flag is `false` whatever `base` would do), but the handler
returns `none` — an absent result — instead of the claimed
`valid = false` result carrying the challenge-mismatch error, because
the `except` branch drops the `PurposeResult` it constructs. -/
theorem c2_challenge_mismatch_short_circuit_returns_none :
    ∀ base, AuthenticationProofPurpose.validate ⟨"expected-chal", none, "d2"⟩
      ⟨none, none, some "other-chal", none⟩ base = (none, false) := by
  intro base
  rfl

/-- C3: with a configured (truthy) domain and a mismatched proof domain
the base validation is never reached, but the result is `none` rather
than the claimed `valid = false` with a domain-mismatch error (the
missing `return` again); with no domain configured the domain check is
skipped entirely — any proof domain flows through to the base
validation, whose result is returned. -/
theorem c3_domain_check_configured_only :
    (∀ base, AuthenticationProofPurpose.validate
      ⟨"c3", some "example.com", "d3"⟩
      ⟨none, none, some "c3", some "other.org"⟩ base = (none, false)) ∧
    (∀ (d : Option String) (r : PurposeResult),
      AuthenticationProofPurpose.validate ⟨"c3", none, "d3"⟩
        ⟨none, none, some "c3", d⟩ (.ok r) = (some r, true)) := by
  constructor
  · intro base
    rfl
  · intro d r
    rfl

/-- C9: `AuthenticationProofPurpose.update` extends the base update
(which stamps the purpose term and the reference date) by stamping the
context's challenge, and stamps the context's domain exactly when one is
configured (truthy, i.e. present and non-empty); otherwise the proof's
domain field is left as it was. -/
theorem c9_update_stamps_challenge_and_domain :
    ∀ (ctx : AuthenticationProofPurpose) (p : LDProof),
      (ctx.update p).proofPurpose = some authenticationTerm ∧
      (ctx.update p).created = some ctx.date ∧
      (ctx.update p).challenge = some ctx.challenge ∧
      (ctx.update p).domain =
        (if pyTruthy ctx.domain then ctx.domain else p.domain) := by
  intro ctx p
  unfold AuthenticationProofPurpose.update controllerUpdate
  cases h : pyTruthy ctx.domain <;> simp [h]

/-- Auxiliary simultaneous induction on fuel: on a string label neither
`get` nor the reflected `__eq__` of `Role`/`State` ever produces a value,
whatever the call-depth budget. -/
theorem bm_get_eq_fuel_insensitive :
    ∀ fuel : Nat,
      (∀ s, bmRoleGet fuel (BMRoleArg.str s) = none) ∧
      (∀ r s, bmRoleEqStr fuel r s = none) ∧
      (∀ s, bmStateGet fuel (BMStateArg.str s) = none) ∧
      (∀ st s, bmStateEqStr fuel st s = none) := by
  intro fuel
  induction fuel with
  | zero =>
    exact ⟨fun _ => rfl, fun _ _ => rfl, fun _ => rfl, fun _ _ => rfl⟩
  | succ f ih =>
    obtain ⟨hrg, hre, hsg, hse⟩ := ih
    refine ⟨fun s => ?_, fun r s => ?_, fun s => ?_, fun st s => ?_⟩
    · simp [bmRoleGet, hre]
    · simp [bmRoleEqStr, hrg]
    · simp [bmStateGet, hse]
    · simp [bmStateEqStr, hsg]

/-- C10: for every string label (the enum's own value strings included),
`BasicMessageRecord.Role.get` and `BasicMessageRecord.State.get` never
return a value — the overridden `__eq__` used by the lookup loop
delegates back to `get` on the same string, an unbounded mutual
recursion: no call-depth budget `fuel` suffices for `get` or for a
`Role`/`State`-to-string comparison to produce a result. -/
theorem c10_role_state_string_comparison_diverges :
    ∀ (fuel : Nat) (s : String),
      bmRoleGet fuel (BMRoleArg.str s) = none ∧
      bmStateGet fuel (BMStateArg.str s) = none ∧
      (∀ r, bmRoleEqStr fuel r s = none) ∧
      (∀ st, bmStateEqStr fuel st s = none) := by
  intro fuel s
  obtain ⟨hrg, hre, hsg, hse⟩ := bm_get_eq_fuel_insensitive fuel
  exact ⟨hrg s, hsg s, fun r => hre r s, fun st => hse st s⟩

/-- C4: every ledger admin route answers forbidden when no ledger
binding is configured, before any operation-specific logic — the
collaborator call trace is empty in every case. -/
theorem c4_no_ledger_binding_forbidden :
    ∀ (did verkey role endpointType : Option String) (body : AcceptBody),
      register_ledger_nym none did verkey role = (.error .forbidden, []) ∧
      get_nym_role none did = (.error .forbidden, []) ∧
      rotate_public_did_keypair none = (.error .forbidden, []) ∧
      get_did_verkey none did = (.error .forbidden, []) ∧
      get_did_endpoint none did endpointType = (.error .forbidden, []) ∧
      ledger_get_taa none = (.error .forbidden, []) ∧
      ledger_accept_taa none body = (.error .forbidden, []) := by
  intro did verkey role endpointType body
  exact ⟨rfl, rfl, rfl, rfl, rfl, rfl, rfl⟩

/-- C5: when the currently fetched agreement has `taa_required = false`,
accept-TAA answers bad-request, and the collaborator call trace shows
only the agreement read — the accept operation is never invoked, so no
acceptance record is written and the agreement state is untouched. -/
theorem c5_accept_taa_not_required_bad_request :
    ∀ (l : LedgerConn) (body : AcceptBody) (v t : Option String),
      ledger_accept_taa
        (some { l with ltype := "indy", getTaaR := .ok ⟨false, v, t⟩ }) body
        = (.error .badRequest, [.getAgreement]) := by
  intro l body v t
  rfl

/-- C6: with `taa_required = true` on an indy ledger and a succeeding
persistence collaborator, accept-TAA submits exactly the acceptance
value built from the request body — version, text, and the digest
computed by the ledger's digest function over that same version and
text — together with the given mechanism, and acknowledges success. -/
theorem c6_accept_taa_submits_digest_record :
    ∀ (l : LedgerConn) (body : AcceptBody) (v t : Option String),
      ledger_accept_taa
        (some { l with ltype := "indy", getTaaR := .ok ⟨true, v, t⟩,
                       acceptTaaR := fun _ _ => .ok () }) body
        = (.ok .emptyResp,
           [.getAgreement,
            .acceptAgreement
              ⟨body.version, body.text, l.taaDigest body.version body.text⟩
              body.mechanism]) := by
  intro l body v t
  rfl

/-- C7: register-NYM outcome mapping — a missing (or Python-falsy) did
or verkey is a bad-request with no collaborator call; a
`LedgerTransactionError` (TAA outstanding / policy violation) is
forbidden; a `BadLedgerRequestError`, any other `LedgerError`, or a
`WalletError` is a bad-request; a successful submission acknowledges
with the ledger's success value. -/
theorem c7_register_nym_outcome_mapping :
    ∀ (l : LedgerConn) (d : String) (verkey role : Option String) (b : Bool),
      register_ledger_nym (some l) none verkey role
        = (.error .badRequest, []) ∧
      register_ledger_nym (some l) (some d) none role
        = (.error .badRequest, []) ∧
      register_ledger_nym (some { l with registerNymR := .ok b })
          (some "did") (some "verkey") role
        = (.ok (.registerResp b), [.registerNym "did" "verkey" role]) ∧
      register_ledger_nym (some { l with registerNymR := .error .transaction })
          (some "did") (some "verkey") role
        = (.error .forbidden, [.registerNym "did" "verkey" role]) ∧
      register_ledger_nym (some { l with registerNymR := .error .badLedgerReq })
          (some "did") (some "verkey") role
        = (.error .badRequest, [.registerNym "did" "verkey" role]) ∧
      register_ledger_nym (some { l with registerNymR := .error .ledgerOther })
          (some "did") (some "verkey") role
        = (.error .badRequest, [.registerNym "did" "verkey" role]) ∧
      register_ledger_nym (some { l with registerNymR := .error .wallet })
          (some "did") (some "verkey") role
        = (.error .badRequest, [.registerNym "did" "verkey" role]) := by
  intro l d verkey role b
  refine ⟨rfl, ?_, rfl, rfl, rfl, rfl, rfl⟩
  cases h : pyTruthy (some d) <;> simp [register_ledger_nym, h, pyTruthy]

/-- C8: get-role outcome mapping — a missing did is a bad-request with
no collaborator call; a DID with no ledger record
(`BadLedgerRequestError`) is not-found; a transaction-build failure
(`LedgerTransactionError`) is forbidden; any other ledger or wallet
error is a bad-request; on success the response carries the Role
Registry's canonical name for the raw ledger role, and every canonical
name is one of the registry's name strings, never a numeric code. -/
theorem c8_get_nym_role_outcome_mapping :
    ∀ (l : LedgerConn) (r : IndyRole),
      get_nym_role (some l) none = (.error .badRequest, []) ∧
      get_nym_role (some { l with getNymRoleR := .ok r }) (some "did")
        = (.ok (.roleResp (roleName r)), [.getNymRole "did"]) ∧
      get_nym_role (some { l with getNymRoleR := .error .badLedgerReq })
          (some "did")
        = (.error .notFound, [.getNymRole "did"]) ∧
      get_nym_role (some { l with getNymRoleR := .error .transaction })
          (some "did")
        = (.error .forbidden, [.getNymRole "did"]) ∧
      get_nym_role (some { l with getNymRoleR := .error .ledgerOther })
          (some "did")
        = (.error .badRequest, [.getNymRole "did"]) ∧
      get_nym_role (some { l with getNymRoleR := .error .wallet })
          (some "did")
        = (.error .badRequest, [.getNymRole "did"]) ∧
      (∀ r2, roleName r2 ∈
        (["TRUSTEE", "STEWARD", "ENDORSER", "NETWORK_MONITOR", "USER"] :
          List String)) := by
  intro l r
  refine ⟨rfl, rfl, rfl, rfl, rfl, rfl, fun r2 => ?_⟩
  cases r2 <;> simp [roleName]
